import Mathlib

/-!
Verification of the hydroclimatic index engine of `app.py` (repository
`indice_mm`).  The engine consumes a time-ordered precipitation series and
produces per-block statistics (wet/dry counts, dry-spell lengths, INT, DSL,
CDD, R95 exceedances) plus selection-relative normalized indices.

Modelling conventions of the shallow embedding:
  * A precipitation value is `Option ℚ`; `none` models pandas `NaN`
    (a missing or unparseable value after `pd.to_numeric(..., errors="coerce")`).
  * `precip >= t` on a possibly-NaN value is `ge_thresh t`: `NaN >= t` is
    `False` in pandas, hence `none ↦ false`.
  * `.sum(skipna=True)` is `sumSkipna`; `.mean(skipna=True)` is `meanSkipna`
    (returning `none` for an all-NaN/empty column, as pandas returns `NaN`).
  * Dates are modelled only as far as the claims need them: an ordinal for
    sorting in `prepare_df`, and the `(year, month)` pair consumed by
    `season_label` / `season_year`.
-/

/-- `precip >= t` with pandas NaN semantics: a missing value compares `false`.
Embeds the comparisons `g["precip"] >= wet_thresh` (line 177) and
`g["precip"] >= r95_thresh` (line 190) of `app.py`. -/
def ge_thresh (t : ℚ) (o : Option ℚ) : Bool :=
  match o with
  | some v => decide (t ≤ v)
  | none => false

/-- `Series.sum(skipna=True)`: sum of the non-missing values. -/
def sumSkipna (l : List (Option ℚ)) : ℚ :=
  (l.filterMap id).sum

/-- `Series.mean(skipna=True)`: mean of the non-missing values, `none`
(pandas `NaN`) when there are none. -/
def meanSkipna (l : List (Option ℚ)) : Option ℚ :=
  let vs := l.filterMap id
  if vs.isEmpty then none else some (vs.sum / (vs.length : ℚ))

/-- Accumulator loop of `dry_spell_lengths` (app.py lines 154-166): `run` is
the length of the currently open run of `True`. -/
def dryRunsAux : List Bool → Nat → List Nat
  | [], run => if 0 < run then [run] else []
  | v :: rest, run =>
    if v then
      dryRunsAux rest (run + 1)
    else
      if 0 < run then run :: dryRunsAux rest 0 else dryRunsAux rest 0

/-- `dry_spell_lengths` (app.py lines 154-166): lengths of the maximal
consecutive runs of `True` (dry days), in order. -/
def dry_spell_lengths (is_dry_bool : List Bool) : List Nat :=
  dryRunsAux is_dry_bool 0

/-- One row of the per-block output `pd.Series` of `compute_block_metrics`
(app.py lines 196-208), with pandas `NaN` entries as `none`. -/
structure BlockMetrics where
  PRCPTOT_mm : ℚ
  Dias_chuvosos : Nat
  INT_mm_dia : Option ℚ
  DSL_dias : ℚ
  CDD_dias : Nat
  Dias_secos : Nat
  N_periodos_secos : Nat
  R95pTOT_mm : Option ℚ
  R95pDAYS : Nat
deriving Repr, DecidableEq

/-- `compute_block_metrics` (app.py lines 175-208) on the block's precipitation
column `g` (order preserved), wet threshold `wet_thresh`, and baseline-derived
threshold `r95_thresh` (`none` = `NaN`). -/
def compute_block_metrics (g : List (Option ℚ)) (wet_thresh : ℚ)
    (r95_thresh : Option ℚ) : BlockMetrics :=
  let prcptot := sumSkipna g
  let rainy := g.countP (ge_thresh wet_thresh)
  let INT : Option ℚ := if 0 < rainy then some (prcptot / (rainy : ℚ)) else none
  let lengths := dry_spell_lengths (g.map (fun o => !ge_thresh wet_thresh o))
  let DSL : ℚ := if lengths.isEmpty then 0 else (lengths.sum : ℚ) / (lengths.length : ℚ)
  let CDD : Nat := lengths.foldr max 0
  let r95pair : Option ℚ × Nat :=
    match r95_thresh with
    | some rt => (some (sumSkipna (g.filter (ge_thresh rt))), g.countP (ge_thresh rt))
    | none => (none, 0)
  { PRCPTOT_mm := prcptot
    Dias_chuvosos := rainy
    INT_mm_dia := INT
    DSL_dias := DSL
    CDD_dias := CDD
    Dias_secos := g.countP (fun o => !ge_thresh wet_thresh o)
    N_periodos_secos := lengths.length
    R95pTOT_mm := r95pair.1
    R95pDAYS := r95pair.2 }

/-- Ascending insertion used to model `np.sort` inside `np.percentile`. -/
def insertAsc (x : ℚ) : List ℚ → List ℚ
  | [] => [x]
  | y :: ys => if x ≤ y then x :: y :: ys else y :: insertAsc x ys

/-- Ascending sort of a rational list. -/
def sortAsc (l : List ℚ) : List ℚ :=
  l.foldr insertAsc []

/-- `np.percentile(wet, 95)` with the default linear-interpolation method:
rank `h = 0.95 * (n - 1)`, result `x[⌊h⌋] + frac * (x[⌊h⌋+1] - x[⌊h⌋])`. -/
def percentile95 (l : List ℚ) : ℚ :=
  let s := sortAsc l
  let n := s.length
  if n = 0 then 0
  else
    let h : ℚ := 95 / 100 * ((n : ℚ) - 1)
    let k : Nat := (⌊h⌋).toNat
    let frac : ℚ := h - (k : ℚ)
    let xk := s.getD k 0
    let xk1 := s.getD (k + 1) xk
    xk + frac * (xk1 - xk)

/-- `compute_r95_threshold` (app.py lines 168-173): 95th percentile of the
baseline's wet-day precipitation, `none` (`NaN`) when the baseline has no wet
day. -/
def compute_r95_threshold (base : List (Option ℚ)) (wet_thresh : ℚ) : Option ℚ :=
  let wet := (base.filter (ge_thresh wet_thresh)).filterMap id
  if wet.isEmpty then none else some (percentile95 wet)

/-- A raw CSV row after the coercing conversions of `_prepare_df` (app.py
lines 92-93): `none` in a field models a value `pd.to_datetime` /
`pd.to_numeric` could not parse (`NaT` / `NaN`).  The date is reduced to an
ordinal, all the claims need of it here. -/
structure RawRow where
  date : Option Int
  precip : Option ℚ
deriving Repr, DecidableEq

/-- `_prepare_df`'s row filtering and ordering (app.py line 94):
`dropna(subset=["date"]).sort_values("date")`.  Only rows with a missing
*date* are dropped; rows with a missing precipitation value are kept. -/
def prepare_df (rows : List RawRow) : List RawRow :=
  List.insertionSort (fun a b => a.date.getD 0 ≤ b.date.getD 0)
    (rows.filter (fun r => r.date.isSome))

/-- `season_label` (app.py lines 135-139). -/
def season_label (month : Nat) : String :=
  if month = 12 ∨ month = 1 ∨ month = 2 then "DJF"
  else if month = 3 ∨ month = 4 ∨ month = 5 then "MAM"
  else if month = 6 ∨ month = 7 ∨ month = 8 then "JJA"
  else "SON"

/-- `season_year` (app.py lines 141-143): December counts toward the
following year. -/
def season_year (year : Int) (month : Nat) : Int :=
  if month = 12 then year + 1 else year

/-- `add_normalized_cols`'s per-column normalization (app.py lines 216-217):
divide by the column's skipna mean when that mean is defined and nonzero
(Python truthiness: a zero mean is falsy), otherwise the whole normalized
column is `NaN`. -/
def normalizeCol (l : List (Option ℚ)) : List (Option ℚ) :=
  match meanSkipna l with
  | some m => if m = 0 then l.map (fun _ => none) else l.map (Option.map (fun x => x / m))
  | none => l.map (fun _ => none)

/-- The three columns `add_normalized_cols` (app.py lines 210-221) adds to the
metrics table; `HY_INT` is the entrywise product with `NaN` propagation. -/
structure NormTable where
  INT_norm : List (Option ℚ)
  DSL_norm : List (Option ℚ)
  HY_INT : List (Option ℚ)
deriving Repr

/-- `add_normalized_cols` (app.py lines 210-221) on a table of block metrics.
The `DSL_dias` column is always a number in the source, hence `some` entries. -/
def add_normalized_cols (table : List BlockMetrics) : NormTable :=
  let intN := normalizeCol (table.map (fun b => b.INT_mm_dia))
  let dslN := normalizeCol (table.map (fun b => some b.DSL_dias))
  { INT_norm := intN
    DSL_norm := dslN
    HY_INT := List.zipWith (fun i d => i.bind (fun x => d.map (fun y => x * y))) intN dslN }

/-!  Helper lemmas (shared across the claim theorems). -/

/-- `filterMap id` steps on a `some` head. -/
theorem filterMap_id_cons_some (a : ℚ) (l : List (Option ℚ)) :
    ((some a :: l).filterMap id) = a :: l.filterMap id := rfl

/-- `filterMap id` steps on a `none` head. -/
theorem filterMap_id_cons_none (l : List (Option ℚ)) :
    ((none :: l).filterMap id) = l.filterMap id := rfl

/-- `filterMap id` on the empty list. -/
theorem filterMap_id_nil : (([] : List (Option ℚ)).filterMap id) = [] := rfl

/-- The emitted run lengths of the accumulator loop sum to the number of
`true` entries plus the open run carried in. -/
theorem dryRunsAux_sum (l : List Bool) :
    ∀ run : Nat, (dryRunsAux l run).sum = l.countP id + run := by
  induction l with
  | nil =>
    intro run
    by_cases h : 0 < run
    · simp [dryRunsAux, h]
    · simp [dryRunsAux, h, Nat.eq_zero_of_not_pos h]
  | cons v t ih =>
    intro run
    cases v with
    | true => simp [dryRunsAux, ih, List.countP_cons]; omega
    | false =>
      by_cases h : 0 < run
      · simp [dryRunsAux, h, ih, List.countP_cons]
        omega
      · simp [dryRunsAux, h, ih, List.countP_cons, Nat.eq_zero_of_not_pos h]

/-- Every run length the accumulator loop emits is positive. -/
theorem dryRunsAux_pos (l : List Bool) :
    ∀ run r : Nat, r ∈ dryRunsAux l run → 0 < r := by
  induction l with
  | nil =>
    intro run r hr
    by_cases h : 0 < run
    · simp [dryRunsAux, h] at hr; omega
    · simp [dryRunsAux, h] at hr
  | cons v t ih =>
    intro run r hr
    cases v with
    | true => exact ih (run + 1) r (by simpa [dryRunsAux] using hr)
    | false =>
      by_cases h : 0 < run
      · simp [dryRunsAux, h] at hr
        rcases hr with rfl | hr
        · exact h
        · exact ih 0 r hr
      · exact ih 0 r (by simpa [dryRunsAux, h] using hr)

/-- The dry-run lengths sum to the number of `true` (dry) entries. -/
theorem dry_spell_lengths_sum (l : List Bool) :
    (dry_spell_lengths l).sum = l.countP id := by
  simpa using dryRunsAux_sum l 0

/-- A boolean predicate partitions a list: matching plus non-matching
entries count the whole list. -/
theorem countP_bool_partition {α : Type} (p : α → Bool) (l : List α) :
    l.countP p + l.countP (fun a => !p a) = l.length := by
  induction l with
  | nil => simp
  | cons a t ih =>
    cases h : p a <;> simp [List.countP_cons, h] <;> omega

/-- Counting `true` after negating every entry counts the `false` entries. -/
theorem countP_id_map_not (l : List Bool) :
    (l.map (fun b => !b)).countP id = l.countP (fun b => !b) := by
  induction l with
  | nil => simp
  | cons a t ih => cases a <;> simp [List.countP_cons, ih]

/-!  C4, C5, C9, C10. -/

/-- C4 (counterexample): on the sequence `[false]` the segmenter emits no
run at all, so the sum of the emitted run lengths is `0`, not the sequence
length `1` — the emitted runs do not cover the whole input. -/
theorem C4_counterexample :
    dry_spell_lengths [false] = [] ∧
    (dry_spell_lengths [false]).sum ≠ ([false] : List Bool).length := by
  exact ⟨rfl, by decide⟩

/-- C4 (amended): `dry_spell_lengths` emits only the `true` (dry) runs, so
its lengths sum to the number of `true` entries; the whole input is covered
only jointly with the runs of the negated sequence: the two sums add up to
the sequence length. -/
theorem C4_dry_runs_cover (l : List Bool) :
    (dry_spell_lengths l).sum = l.countP id ∧
    (dry_spell_lengths l).sum + (dry_spell_lengths (l.map (fun b => !b))).sum
      = l.length := by
  refine ⟨dry_spell_lengths_sum l, ?_⟩
  rw [dry_spell_lengths_sum, dry_spell_lengths_sum, countP_id_map_not]
  exact countP_bool_partition id l

/-- C5: on the six-day scenario series with `wet_threshold = 1`, the block
metrics are wet days `2`, dry runs `[1, 3]`, `DSL = 2`, `CDD = 3`,
`INT = 7/2 = 3.5`. -/
theorem C5_scenario :
    (compute_block_metrics [some 0, some 5, some 0, some 0, some 0, some 2] 1 none).Dias_chuvosos = 2 ∧
    dry_spell_lengths ([some 0, some 5, some 0, some 0, some 0, some 2].map
      (fun o => !ge_thresh 1 o)) = [1, 3] ∧
    (compute_block_metrics [some 0, some 5, some 0, some 0, some 0, some 2] 1 none).DSL_dias = 2 ∧
    (compute_block_metrics [some 0, some 5, some 0, some 0, some 0, some 2] 1 none).CDD_dias = 3 ∧
    (compute_block_metrics [some 0, some 5, some 0, some 0, some 0, some 2] 1 none).INT_mm_dia = some (7 / 2) := by
  refine ⟨?_, ?_, ?_, ?_, ?_⟩ <;>
    simp [compute_block_metrics, sumSkipna, ge_thresh, dry_spell_lengths, dryRunsAux] <;>
    norm_num

/-- C9: in every block's metrics the wet-day count plus the dry-day count
equals the number of observations in the block. -/
theorem C9_wet_dry_partition (g : List (Option ℚ)) (w : ℚ) (r : Option ℚ) :
    (compute_block_metrics g w r).Dias_chuvosos + (compute_block_metrics g w r).Dias_secos
      = g.length := by
  show g.countP (ge_thresh w) + g.countP (fun o => !ge_thresh w o) = g.length
  exact countP_bool_partition (ge_thresh w) g

/-- C10: every run length emitted by `dry_spell_lengths` is at least `1`,
and the emitted lengths sum to the number of `true` (dry) entries. -/
theorem C10_runs_positive_sum (l : List Bool) :
    (∀ r ∈ dry_spell_lengths l, 1 ≤ r) ∧
    (dry_spell_lengths l).sum = l.countP id := by
  exact ⟨fun r hr => dryRunsAux_pos l 0 r hr, dry_spell_lengths_sum l⟩

/-- C10 (witness): the invariants at the concrete input `[true, false, true, true]`. -/
theorem C10_witness :
    (∀ r ∈ dry_spell_lengths [true, false, true, true], 1 ≤ r) ∧
    (dry_spell_lengths [true, false, true, true]).sum
      = [true, false, true, true].countP id :=
  C10_runs_positive_sum [true, false, true, true]

/-!  C1, C2, C3. -/

/-- C1 (counterexample): in the block `[0.5, 5]` with wet threshold `1` there
is one wet day whose precipitation sums to `5`, yet the computed INT is
`11/2`, not `5/1`: the sub-threshold precipitation of the dry day
contributes to INT. -/
theorem C1_counterexample :
    (compute_block_metrics [some (1/2), some 5] 1 none).Dias_chuvosos = 1 ∧
    sumSkipna ([some (1/2), some 5].filter (ge_thresh 1)) = 5 ∧
    (compute_block_metrics [some (1/2), some 5] 1 none).INT_mm_dia ≠ some (5 / 1) := by
  refine ⟨?_, ?_, ?_⟩
  · show List.countP (ge_thresh 1) [some (1/2), some 5] = 1
    norm_num [List.countP_cons, ge_thresh]
  · norm_num [sumSkipna, List.filter_cons, ge_thresh, filterMap_id_cons_some,
      filterMap_id_nil]
  · norm_num [compute_block_metrics, sumSkipna, List.countP_cons, ge_thresh,
      filterMap_id_cons_some, filterMap_id_nil]

/-- C1 (amended): for every block with at least one wet day, INT equals the
block's total precipitation over *all* days (sub-threshold precipitation on
dry days included) divided by the number of wet days. -/
theorem C1_int_total_over_wet (g : List (Option ℚ)) (w : ℚ) (r : Option ℚ)
    (h : 0 < g.countP (ge_thresh w)) :
    (compute_block_metrics g w r).INT_mm_dia
      = some (sumSkipna g / (g.countP (ge_thresh w) : ℚ)) := by
  show (if 0 < g.countP (ge_thresh w) then
      some (sumSkipna g / (g.countP (ge_thresh w) : ℚ)) else none) = _
  rw [if_pos h]

/-- C1 (witness): the amended statement at the concrete block `[0.5, 5]`. -/
theorem C1_witness :
    0 < [some (1/2), some 5].countP (ge_thresh 1) ∧
    (compute_block_metrics [some (1/2), some 5] 1 none).INT_mm_dia
      = some (sumSkipna [some (1/2), some 5]
          / (([some (1/2), some 5].countP (ge_thresh 1) : ℚ))) :=
  ⟨by norm_num [List.countP_cons, ge_thresh],
   C1_int_total_over_wet [some (1/2), some 5] 1 none
     (by norm_num [List.countP_cons, ge_thresh])⟩

/-- C2 (counterexample): with baseline `[0]` and wet threshold `1` the R95
threshold is undefined (`none`), but the block `[5]` then gets
`R95pDAYS = 0` — a zero, not a "no value" marker. -/
theorem C2_counterexample :
    compute_r95_threshold [some 0] 1 = none ∧
    (compute_block_metrics [some 5] 1 (compute_r95_threshold [some 0] 1)).R95pDAYS = 0 := by
  have h : compute_r95_threshold [some 0] 1 = none := by
    simp [compute_r95_threshold, ge_thresh]
  exact ⟨h, by rw [h]; rfl⟩

/-- C2 (amended): if the baseline has no wet day, the R95 threshold is
`none` and every block gets `R95pTOT = none` but `R95pDAYS = 0` (an
explicit zero, not a no-value marker). -/
theorem C2_no_wet_baseline (base g : List (Option ℚ)) (w : ℚ)
    (h : ∀ o ∈ base, ge_thresh w o = false) :
    compute_r95_threshold base w = none ∧
    (compute_block_metrics g w (compute_r95_threshold base w)).R95pTOT_mm = none ∧
    (compute_block_metrics g w (compute_r95_threshold base w)).R95pDAYS = 0 := by
  have hf : base.filter (ge_thresh w) = [] := by
    rw [List.filter_eq_nil_iff]
    intro a ha
    simp [h a ha]
  have ht : compute_r95_threshold base w = none := by
    simp [compute_r95_threshold, hf]
  exact ⟨ht, by rw [ht]; rfl, by rw [ht]; rfl⟩

/-- C2 (witness): the amended statement at baseline `[0]`, block `[5]`,
threshold `1`. -/
theorem C2_witness :
    (∀ o ∈ ([some 0] : List (Option ℚ)), ge_thresh 1 o = false) ∧
    (compute_r95_threshold [some 0] 1 = none ∧
     (compute_block_metrics [some 5] 1 (compute_r95_threshold [some 0] 1)).R95pTOT_mm = none ∧
     (compute_block_metrics [some 5] 1 (compute_r95_threshold [some 0] 1)).R95pDAYS = 0) :=
  ⟨by intro o ho; simp at ho; subst ho; norm_num [ge_thresh],
   C2_no_wet_baseline [some 0] [some 5] 1
     (by intro o ho; simp at ho; subst ho; norm_num [ge_thresh])⟩

/-- C3 (counterexample): `_prepare_df` keeps the row whose precipitation is
missing (only missing dates are dropped), and in the block `[5, NaN]` the
missing observation is counted as a dry day (`Dias_secos = 1`), so it is
not excluded from the day counts. -/
theorem C3_counterexample :
    prepare_df [⟨some 0, some 5⟩, ⟨some 1, none⟩] = [⟨some 0, some 5⟩, ⟨some 1, none⟩] ∧
    (compute_block_metrics [some 5, none] 1 none).Dias_chuvosos = 1 ∧
    (compute_block_metrics [some 5, none] 1 none).Dias_secos = 1 := by
  refine ⟨?_, ?_, ?_⟩
  · simp [prepare_df, List.insertionSort, List.orderedInsert]
  · show [some 5, none].countP (ge_thresh 1) = 1
    norm_num [List.countP_cons, ge_thresh]
  · show [some 5, none].countP (fun o => !ge_thresh 1 o) = 1
    norm_num [List.countP_cons, ge_thresh]

/-- C3 (amended): only rows with a missing *date* are excluded by the
preparation step; a row with a missing precipitation value is kept, is
counted as a dry day by the block metrics, and contributes nothing to the
skipna precipitation totals. -/
theorem C3_missing_precip_kept (rows : List RawRow) (r : RawRow)
    (g : List (Option ℚ)) (w : ℚ) (rt : Option ℚ) :
    (r ∈ prepare_df rows ↔ r ∈ rows ∧ r.date.isSome) ∧
    (compute_block_metrics (g ++ [none]) w rt).Dias_secos
      = (compute_block_metrics g w rt).Dias_secos + 1 ∧
    sumSkipna (g ++ [none]) = sumSkipna g := by
  refine ⟨?_, ?_, ?_⟩
  · rw [prepare_df, (List.perm_insertionSort _ _).mem_iff]
    simp [List.mem_filter]
  · show (g ++ [none]).countP (fun o => !ge_thresh w o)
        = g.countP (fun o => !ge_thresh w o) + 1
    simp [List.countP_append, List.countP_cons, ge_thresh]
  · show ((g ++ [none]).filterMap id).sum = (g.filterMap id).sum
    simp [List.filterMap_append]

/-!  C6, C8. -/

/-- C6: the month→season mapping is DJF/MAM/JJA/SON as claimed, and the
season-year label adds one to December's calendar year while every other
month keeps its own year. -/
theorem C6_season_assignment (y : Int) (m : Nat) :
    (m = 12 ∨ m = 1 ∨ m = 2 → season_label m = "DJF") ∧
    (m = 3 ∨ m = 4 ∨ m = 5 → season_label m = "MAM") ∧
    (m = 6 ∨ m = 7 ∨ m = 8 → season_label m = "JJA") ∧
    (m = 9 ∨ m = 10 ∨ m = 11 → season_label m = "SON") ∧
    (m = 12 → season_year y m = y + 1) ∧
    (m ≠ 12 → season_year y m = y) := by
  refine ⟨?_, ?_, ?_, ?_, ?_, ?_⟩
  · rintro (rfl | rfl | rfl) <;> rfl
  · rintro (rfl | rfl | rfl) <;> rfl
  · rintro (rfl | rfl | rfl) <;> rfl
  · rintro (rfl | rfl | rfl) <;> rfl
  · rintro rfl; rfl
  · intro h; simp [season_year, h]

/-- C6 (witness): a 2019-12 observation is labeled DJF of season-year 2020. -/
theorem C6_witness :
    season_label 12 = "DJF" ∧ season_year 2019 12 = 2020 :=
  ⟨(C6_season_assignment 2019 12).1 (Or.inl rfl),
   ((C6_season_assignment 2019 12).2.2.2.2.1 rfl).trans (by norm_num)⟩

/-- Lowering the threshold only adds exceedances: `precip >= t` with NaN
semantics is antitone in `t`. -/
theorem ge_thresh_antitone {tA tB : ℚ} (h : tA ≤ tB) (o : Option ℚ) :
    ge_thresh tB o = true → ge_thresh tA o = true := by
  cases o with
  | none => simp [ge_thresh]
  | some v =>
    simp only [ge_thresh, decide_eq_true_eq]
    exact fun hv => le_trans h hv

/-- C8: R95pDAYS is antitone in the (defined) threshold: a lower threshold
never yields fewer exceedance days on a fixed block. -/
theorem C8_r95pdays_antitone (g : List (Option ℚ)) (w tA tB : ℚ) (h : tA ≤ tB) :
    (compute_block_metrics g w (some tB)).R95pDAYS
      ≤ (compute_block_metrics g w (some tA)).R95pDAYS := by
  show g.countP (ge_thresh tB) ≤ g.countP (ge_thresh tA)
  induction g with
  | nil => simp
  | cons o t ih =>
    rw [List.countP_cons, List.countP_cons]
    by_cases hB : ge_thresh tB o = true
    · rw [if_pos hB, if_pos (ge_thresh_antitone h o hB)]
      omega
    · rw [if_neg hB]
      split <;> omega

/-- C8 (witness): the antitonicity at block `[5]`, thresholds `1 ≤ 2`. -/
theorem C8_witness :
    (1 : ℚ) ≤ 2 ∧
    (compute_block_metrics [some 5] 1 (some 2)).R95pDAYS
      ≤ (compute_block_metrics [some 5] 1 (some 1)).R95pDAYS :=
  ⟨by norm_num, C8_r95pdays_antitone [some 5] 1 1 2 (by norm_num)⟩

/-!  C7: normalization mean law. -/

/-- Mapping a function under `Option.map` commutes with `filterMap id`. -/
theorem filterMap_id_map_optionMap (f : ℚ → ℚ) (l : List (Option ℚ)) :
    (l.map (Option.map f)).filterMap id = (l.filterMap id).map f := by
  induction l with
  | nil => rfl
  | cons o t ih =>
    cases o <;>
      simp [filterMap_id_cons_some, filterMap_id_cons_none, ih]

/-- Dividing every entry by `m` divides the sum by `m`. -/
theorem sum_map_div (l : List ℚ) (m : ℚ) :
    (l.map (fun x => x / m)).sum = l.sum / m := by
  induction l with
  | nil => simp
  | cons a t ih => simp [ih, add_div]

/-- Evaluation of `meanSkipna` on a column with at least one defined value. -/
theorem meanSkipna_of_ne_nil (l : List (Option ℚ)) (h : l.filterMap id ≠ []) :
    meanSkipna l = some ((l.filterMap id).sum / ((l.filterMap id).length : ℚ)) := by
  simp [meanSkipna, List.isEmpty_iff, h]

/-- A defined skipna mean comes from a nonempty defined part and equals its
sum over its length. -/
theorem meanSkipna_eq_some (l : List (Option ℚ)) (m : ℚ)
    (h : meanSkipna l = some m) :
    l.filterMap id ≠ [] ∧
    m = (l.filterMap id).sum / ((l.filterMap id).length : ℚ) := by
  by_cases he : l.filterMap id = []
  · simp [meanSkipna, he] at h
  · rw [meanSkipna_of_ne_nil l he] at h
    exact ⟨he, (Option.some.injEq _ _ ▸ h).symm⟩

/-- Core of the normalization mean law: dividing a column by its defined,
nonzero skipna mean yields a column whose skipna mean is `1`. -/
theorem meanSkipna_normalizeCol (l : List (Option ℚ)) (m : ℚ)
    (h : meanSkipna l = some m) (h0 : m ≠ 0) :
    meanSkipna (normalizeCol l) = some 1 := by
  obtain ⟨hne, hm⟩ := meanSkipna_eq_some l m h
  have hcol : normalizeCol l = l.map (Option.map (fun x => x / m)) := by
    unfold normalizeCol
    rw [h]
    exact if_neg h0
  have hfm := filterMap_id_map_optionMap (fun x => x / m) l
  have hne2 : ((l.map (Option.map (fun x => x / m))).filterMap id) ≠ [] := by
    rw [hfm]
    simpa using hne
  rw [hcol, meanSkipna_of_ne_nil _ hne2, hfm, sum_map_div, List.length_map]
  have hn : ((l.filterMap id).length : ℚ) ≠ 0 := by
    have : (l.filterMap id).length ≠ 0 := by
      simpa [List.length_eq_zero] using hne
    exact_mod_cast this
  have hs : (l.filterMap id).sum ≠ 0 := by
    intro hzero
    exact h0 (by rw [hm, hzero, zero_div])
  have : ((l.filterMap id).sum / m) / ((l.filterMap id).length : ℚ) = 1 := by
    rw [hm]
    field_simp
  rw [this]

/-- C7: over any selection of blocks whose INT column has a defined, nonzero
mean and whose DSL column has a defined, nonzero mean, the normalized
columns produced by `add_normalized_cols` each have mean exactly `1`. -/
theorem C7_normalization_mean_one (table : List BlockMetrics) (mI mD : ℚ)
    (hI : meanSkipna (table.map (fun b => b.INT_mm_dia)) = some mI) (hI0 : mI ≠ 0)
    (hD : meanSkipna (table.map (fun b => some b.DSL_dias)) = some mD) (hD0 : mD ≠ 0) :
    meanSkipna (add_normalized_cols table).INT_norm = some 1 ∧
    meanSkipna (add_normalized_cols table).DSL_norm = some 1 := by
  constructor
  · show meanSkipna (normalizeCol (table.map (fun b => b.INT_mm_dia))) = some 1
    exact meanSkipna_normalizeCol _ mI hI hI0
  · show meanSkipna (normalizeCol (table.map (fun b => some b.DSL_dias))) = some 1
    exact meanSkipna_normalizeCol _ mD hD hD0

/-- C7 (witness): the mean law on a concrete two-block table with INT mean
`3` and DSL mean `3/2`. -/
theorem C7_witness :
    meanSkipna (add_normalized_cols
      [⟨2, 1, some 2, 1, 1, 1, 1, none, 0⟩,
       ⟨4, 1, some 4, 2, 2, 2, 1, none, 0⟩]).INT_norm = some 1 ∧
    meanSkipna (add_normalized_cols
      [⟨2, 1, some 2, 1, 1, 1, 1, none, 0⟩,
       ⟨4, 1, some 4, 2, 2, 2, 1, none, 0⟩]).DSL_norm = some 1 :=
  C7_normalization_mean_one _ 3 (3/2)
    (by norm_num [meanSkipna, filterMap_id_cons_some, filterMap_id_nil])
    (by norm_num)
    (by norm_num [meanSkipna, filterMap_id_cons_some, filterMap_id_nil])
    (by norm_num)
